import Mathlib

/-!
Verification development for the VR training analysis script
`research-paper/scripts/analyze_data.py`.

The script is a linear pandas/scipy/matplotlib pipeline over three CSV
datasets.  We embed its data model and every numeric computation the
claims touch.  Numeric columns are embedded as exact rationals; the few
places where the script takes a square root or a tail probability live in
the reals.  Library semantics used by the script are embedded from the
documented behaviour of pandas, numpy and scipy:

* `Series.mean()`   is the arithmetic mean (sum / length);
* `Series.std()`    is the ddof = 1 sample standard deviation, which is
  NaN for samples of fewer than two elements (0/0);
* `(series <= c).mean()` is the fraction of rows satisfying the predicate;
* `scipy.stats.ttest_ind` with its default `equal_var=True` computes the
  pooled two-sample t statistic and a two-sided Student t p-value; for a
  sample with fewer than two elements the ddof = 1 variance is NaN, the
  statistic and p-value propagate to NaN, and no exception is raised;
* `Series.corr` is the Pearson correlation coefficient;
* `sort_values` returns a sorted copy; none of the operations used by the
  script mutates its input frame (no `inplace=True` anywhere).

NaN results are embedded as `none : Option _`; a raised Python exception
would be an `Except.error`, so a step that cannot raise is `Except.ok`.
-/

/-- Row of `technical_performance.csv` (spec section 3). -/
structure TechRow where
  session_id : ℕ
  scenario : String
  timestamp_sec : ℚ
  duration_min : ℚ
  network_latency_ms : ℚ
  frame_rate_fps : ℚ
  calibration_error_mm : ℚ
  headset_temp_c : ℚ
deriving DecidableEq

/-- Row of `collaboration_performance.csv` (spec section 3). -/
structure CollabRow where
  interface_type : String
  task_completion_time_sec : ℚ
  coordination_errors : ℚ
  spatial_awareness_score : ℚ
  task_success : ℚ
deriving DecidableEq

/-- Row of `calibration_accuracy.csv` (spec section 3). -/
structure CalibRow where
  timestamp_min : ℚ
  total_error_mm : ℚ
deriving DecidableEq

/-- The three loaded data frames (lines 25-27 of the script). -/
structure Frames where
  tech : List TechRow
  collab : List CollabRow
  calib : List CalibRow
deriving DecidableEq

/-- Embedding of `Series.mean()`: arithmetic mean, sum divided by length. -/
def mean (xs : List ℚ) : ℚ := xs.sum / xs.length

/-- Embedding of the square of `Series.std()`: the ddof = 1 sample variance,
sum of squared deviations from the mean divided by (n - 1). -/
def sampleVar (xs : List ℚ) : ℚ :=
  ((xs.map (fun x => (x - mean xs) ^ 2)).sum) / ((xs.length : ℚ) - 1)

/-- Embedding of `Series.std()`: square root of the ddof = 1 sample variance,
as a real number.  Meaningful for samples of two or more elements; for the
NaN behaviour on smaller samples see `sampleStdNaN`. -/
noncomputable def sampleStd (xs : List ℚ) : ℝ := Real.sqrt ((sampleVar xs : ℝ))

/-- NaN-aware embedding of `Series.std()`: pandas returns NaN (here `none`)
for a sample of fewer than two elements, because the ddof = 1 divisor n - 1
makes the variance 0/0. -/
noncomputable def sampleStdNaN (xs : List ℚ) : Option ℝ :=
  if 2 ≤ xs.length then some (sampleStd xs) else none

/-- Pooled ddof = 1 variance of two samples, as used by
`scipy.stats.ttest_ind` with its default `equal_var=True`. -/
def pooled_var (b w : List ℚ) : ℚ :=
  (((b.length : ℚ) - 1) * sampleVar b + ((w.length : ℚ) - 1) * sampleVar w) /
    ((b.length : ℚ) + (w.length : ℚ) - 2)

/-- Pooled two-sample t statistic of `scipy.stats.ttest_ind`
(`equal_var=True`): (m1 - m2) / sqrt(sp2 * (1/n1 + 1/n2)). -/
noncomputable def t_stat (b w : List ℚ) : ℝ :=
  ((mean b : ℝ) - (mean w : ℝ)) /
    Real.sqrt ((pooled_var b w : ℝ) * (1 / (b.length : ℝ) + 1 / (w.length : ℝ)))

/-- Density of the Student t distribution with `df` degrees of freedom. -/
noncomputable def studentPDF (df x : ℝ) : ℝ :=
  Real.Gamma ((df + 1) / 2) / (Real.sqrt (df * Real.pi) * Real.Gamma (df / 2)) *
    Real.rpow (1 + x ^ 2 / df) (-((df + 1) / 2))

/-- Upper tail probability of the Student t distribution. -/
noncomputable def studentSF (df c : ℝ) : ℝ := ∫ u in Set.Ioi c, studentPDF df u

/-- Two-sided p-value of `scipy.stats.ttest_ind` (`equal_var=True`):
twice the upper tail beyond the absolute statistic, with n1 + n2 - 2
degrees of freedom. -/
noncomputable def p_value (b w : List ℚ) : ℝ :=
  2 * studentSF ((b.length : ℝ) + (w.length : ℝ) - 2) |t_stat b w|

/-- Embedding of `scipy.stats.ttest_ind(b, w)` (script line 90).  When either
sample has fewer than two elements its ddof = 1 variance is NaN, and scipy
returns a NaN statistic and p-value (with a runtime warning) instead of
raising; NaN is embedded as `none`. -/
noncomputable def ttest_ind (b w : List ℚ) : Option ℝ × Option ℝ :=
  if 2 ≤ b.length ∧ 2 ≤ w.length then (some (t_stat b w), some (p_value b w))
  else (none, none)

/-- Embedding of the effect-size expression at script line 91:
`(b.mean() - w.mean()) / np.sqrt(((len(b)-1)*b.std()**2 + (len(w)-1)*w.std()**2)
/ (len(b) + len(w) - 2))`, written exactly as the source does, with the
square of `Series.std()` (line 99 is the same expression on the error
columns). -/
noncomputable def cohens_d (b w : List ℚ) : ℝ :=
  ((mean b : ℝ) - (mean w : ℝ)) /
    Real.sqrt ((((b.length : ℝ) - 1) * sampleStd b ^ 2 +
        ((w.length : ℝ) - 1) * sampleStd w ^ 2) /
      ((b.length : ℝ) + (w.length : ℝ) - 2))

/-- Modelled from the spec wording of section 4.2: Cohens d with pooled
standard deviation, `d = (mean1 - mean2) / sqrt(((n1-1)*s1^2 + (n2-1)*s2^2)
/ (n1+n2-2))`, where s1^2 and s2^2 are the ddof = 1 sample variances.
Compared against the source-side `cohens_d` in the C1 theorem. -/
noncomputable def cohensD_spec (b w : List ℚ) : ℝ :=
  ((mean b : ℝ) - (mean w : ℝ)) /
    Real.sqrt ((((b.length : ℝ) - 1) * (sampleVar b : ℝ) +
        ((w.length : ℝ) - 1) * (sampleVar w : ℝ)) /
      ((b.length : ℝ) + (w.length : ℝ) - 2))

/-- NaN-aware value of the line-91 expression: with a sample of fewer than
two elements, `Series.std()` is NaN, `0 * NaN` is NaN, and the whole
expression propagates to NaN (`none`). -/
noncomputable def cohens_d_nan (b w : List ℚ) : Option ℝ :=
  if 2 ≤ b.length ∧ 2 ≤ w.length then some (cohens_d b w) else none

/-- The hypothesis-testing step of the script (lines 90-92): run
`stats.ttest_ind` and the effect-size expression.  None of the operations
involved raises on undersized samples (they return NaN), so the step always
returns `Except.ok`; a raised Python exception would be `Except.error`. -/
noncomputable def hypothesis_step (b w : List ℚ) :
    Except String (Option ℝ × Option ℝ × Option ℝ) :=
  Except.ok ((ttest_ind b w).1, (ttest_ind b w).2, cohens_d_nan b w)

/-- Embedding of script line 93:
`((baseline.mean() - wim.mean()) / baseline.mean()) * 100`. -/
def improvement_pct (b w : List ℚ) : ℚ := ((mean b - mean w) / mean b) * 100

/-- Embedding of `(series.map pred).mean()` for a boolean predicate: pandas
treats `True` as 1 and `False` as 0, so the mean is the fraction of rows
satisfying the predicate. -/
def indicator_mean (p : ℚ → Bool) (xs : List ℚ) : ℚ :=
  ((xs.map (fun x => if p x then (1 : ℚ) else 0)).sum) / xs.length

/-- Embedding of script line 46:
`(tech_perf['network_latency_ms'] <= 75).mean() * 100`. -/
def latency_achievement (tech : List TechRow) : ℚ :=
  indicator_mean (fun x => decide (x ≤ 75)) (tech.map (fun r => r.network_latency_ms)) * 100

/-- Embedding of script line 54:
`(tech_perf['frame_rate_fps'] >= 90).mean() * 100`. -/
def fps_achievement (tech : List TechRow) : ℚ :=
  indicator_mean (fun x => decide (90 ≤ x)) (tech.map (fun r => r.frame_rate_fps)) * 100

/-- Boolean timestamp comparison used to embed
`sort_values('timestamp_sec')`. -/
def tsLE (a b : TechRow) : Bool := decide (a.timestamp_sec ≤ b.timestamp_sec)

/-- Embedding of `session_data.sort_values('timestamp_sec')` (script
line 123): a copy of the rows of one session sorted by timestamp
ascending. -/
def sessionSorted (rows : List TechRow) : List TechRow := rows.mergeSort tsLE

/-- Embedding of script lines 126-128: frame rate of `iloc[0]` minus frame
rate of `iloc[-1]` of the sorted session; `none` on an empty session, where
`iloc` would raise. -/
def fps_drift (rows : List TechRow) : Option ℚ := do
  let firstR ← (sessionSorted rows).head?
  let lastR ← (sessionSorted rows).getLast?
  pure (firstR.frame_rate_fps - lastR.frame_rate_fps)

/-- Embedding of script lines 131-133: calibration error of `iloc[-1]` minus
calibration error of `iloc[0]` of the sorted session. -/
def calib_drift (rows : List TechRow) : Option ℚ := do
  let firstR ← (sessionSorted rows).head?
  let lastR ← (sessionSorted rows).getLast?
  pure (lastR.calibration_error_mm - firstR.calibration_error_mm)

/-- Embedding of script line 138: `session_data['duration_min'].iloc[0]`. -/
def session_duration (rows : List TechRow) : Option ℚ :=
  ((sessionSorted rows).head?).map (fun r => r.duration_min)

/-- Embedding of the normalized drift printed at script line 142:
`fps_drift / duration`. -/
def fps_drift_rate (rows : List TechRow) : Option ℚ := do
  let d ← fps_drift rows
  let dur ← session_duration rows
  pure (d / dur)

/-- Embedding of the normalized drift printed at script line 143:
`calib_drift / duration`. -/
def calib_drift_rate (rows : List TechRow) : Option ℚ := do
  let d ← calib_drift rows
  let dur ← session_duration rows
  pure (d / dur)

/-- Embedding of script line 136:
`session_data['network_latency_ms'].std()`, NaN (`none`) on a single-row
session. -/
noncomputable def latency_jitter (rows : List TechRow) : Option ℝ :=
  sampleStdNaN ((sessionSorted rows).map (fun r => r.network_latency_ms))

/-- Embedding of the ddof = 1 sample covariance underlying `Series.corr`. -/
def sampleCov (xs ys : List ℚ) : ℚ :=
  ((List.zipWith (fun x y => (x - mean xs) * (y - mean ys)) xs ys).sum) /
    ((xs.length : ℚ) - 1)

/-- Embedding of `Series.corr` (Pearson correlation coefficient):
sample covariance divided by the product of sample standard deviations. -/
noncomputable def pearson (xs ys : List ℚ) : ℝ :=
  (sampleCov xs ys : ℝ) / (sampleStd xs * sampleStd ys)

/-- Embedding of script line 149: Pearson correlation of headset temperature
with frame rate over the full unfiltered frame. -/
noncomputable def temp_fps_corr (tech : List TechRow) : ℝ :=
  pearson (tech.map (fun r => r.headset_temp_c)) (tech.map (fun r => r.frame_rate_fps))

/-- Embedding of script line 150: Pearson correlation of headset temperature
with calibration error over the full unfiltered frame. -/
noncomputable def temp_calib_corr (tech : List TechRow) : ℝ :=
  pearson (tech.map (fun r => r.headset_temp_c)) (tech.map (fun r => r.calibration_error_mm))

/-- Embedding of script line 151: Pearson correlation of headset temperature
with network latency over the full unfiltered frame. -/
noncomputable def temp_latency_corr (tech : List TechRow) : ℝ :=
  pearson (tech.map (fun r => r.headset_temp_c)) (tech.map (fun r => r.network_latency_ms))

/-- Embedding of script line 88: completion times of the baseline rows. -/
def baseline_times (collab : List CollabRow) : List ℚ :=
  (collab.filter (fun r => r.interface_type == "baseline")).map
    (fun r => r.task_completion_time_sec)

/-- Embedding of script line 89: completion times of the wim rows. -/
def wim_times (collab : List CollabRow) : List ℚ :=
  (collab.filter (fun r => r.interface_type == "wim")).map
    (fun r => r.task_completion_time_sec)

/-- Embedding of script line 122: the distinct session identifiers. -/
def session_ids (tech : List TechRow) : List ℕ :=
  (tech.map (fun r => r.session_id)).eraseDups

/-- Embedding of script line 123 (selection part):
`tech_perf[tech_perf['session_id'] == session]`. -/
def session_rows (tech : List TechRow) (sid : ℕ) : List TechRow :=
  tech.filter (fun r => r.session_id == sid)

/-- Embedding of script line 62:
`calib_acc[calib_acc['timestamp_min'] == 0]['total_error_mm']`. -/
def initial_calib (calib : List CalibRow) : List ℚ :=
  (calib.filter (fun r => decide (r.timestamp_min = 0))).map (fun r => r.total_error_mm)

/-- Embedding of script line 64:
`calib_acc[calib_acc['timestamp_min'] == 45]['total_error_mm']`. -/
def extended_calib (calib : List CalibRow) : List ℚ :=
  (calib.filter (fun r => decide (r.timestamp_min = 45))).map (fun r => r.total_error_mm)

/-- Latency and frame-rate achievement step (script lines 42-55): pure
reductions of the technical frame; no pandas call here mutates, so the
frames pass through unchanged. -/
def benchmark_step (f : Frames) : Frames × (ℚ × ℚ) :=
  (f, (latency_achievement f.tech, fps_achievement f.tech))

/-- Calibration statistics step (script lines 58-66): boolean filtering and
means of the calibration frame, both non-mutating. -/
def calib_stats_step (f : Frames) : Frames × (ℚ × ℚ) :=
  (f, (mean (initial_calib f.calib), mean (extended_calib f.calib)))

/-- Collaboration hypothesis-test step (script lines 88-94): filtering,
`ttest_ind`, the effect-size expression and the improvement percentage all
read the collaboration frame without modifying it. -/
noncomputable def collab_test_step (f : Frames) :
    Frames × (Except String (Option ℝ × Option ℝ × Option ℝ) × ℚ) :=
  (f, (hypothesis_step (baseline_times f.collab) (wim_times f.collab),
    improvement_pct (baseline_times f.collab) (wim_times f.collab)))

/-- Per-session drift loop (script lines 122-144): each iteration selects a
session and sorts a copy with `sort_values` (not in place), leaving the
technical frame untouched. -/
noncomputable def drift_loop_step (f : Frames) :
    Frames × List (Option ℚ × Option ℚ × Option ℝ) :=
  (f, (session_ids f.tech).map (fun sid =>
    (fps_drift (session_rows f.tech sid), calib_drift (session_rows f.tech sid),
      latency_jitter (session_rows f.tech sid))))

/-- Correlation step (script lines 149-151): `Series.corr` reads two columns
and mutates nothing. -/
noncomputable def corr_step (f : Frames) : Frames × (ℝ × ℝ × ℝ) :=
  (f, (temp_fps_corr f.tech, temp_calib_corr f.tech, temp_latency_corr f.tech))

/-- Summary table of script lines 310-321.  The Achieved column is computed
from the frames and the p-value; the Status column is a literal list of five
identical strings in the source, not compared against anything. -/
structure SummaryTable where
  requirement : List String
  target : List String
  achieved_calib : ℚ × Option ℝ
  achieved_latency : ℚ × Option ℝ
  achieved_fps : ℚ × Option ℝ
  achieved_p : Option ℝ
  achieved_stability : String
  status : List String

/-- Embedding of the `summary_data` dictionary (script lines 310-321). -/
noncomputable def summary_data (f : Frames) (pv : Option ℝ) : SummaryTable where
  requirement := ["Calibration", "Network Latency", "Frame Rate", "WIM Effectiveness", "Session Stability"]
  target := ["<10mm", "≤75ms", "≥90fps", "Significant", "30-60min"]
  achieved_calib := (mean (initial_calib f.calib), sampleStdNaN (initial_calib f.calib))
  achieved_latency := (mean (f.tech.map (fun r => r.network_latency_ms)),
    sampleStdNaN (f.tech.map (fun r => r.network_latency_ms)))
  achieved_fps := (mean (f.tech.map (fun r => r.frame_rate_fps)),
    sampleStdNaN (f.tech.map (fun r => r.frame_rate_fps)))
  achieved_p := pv
  achieved_stability := "45min optimal"
  status := ["✓ PASS", "✓ PASS", "✓ PASS", "✓ PASS", "✓ PASS"]

/-- Summary step (script lines 310-324): builds the table from derived
values only. -/
noncomputable def summary_step (f : Frames) : Frames × SummaryTable :=
  (f, summary_data f ((ttest_ind (baseline_times f.collab) (wim_times f.collab)).2))

/-- The analysis pipeline after loading, in script order, threading the
frames through every step exactly as the run does. -/
noncomputable def runAnalysis (f : Frames) :
    Frames × ((ℚ × ℚ) × (ℚ × ℚ) ×
      (Except String (Option ℝ × Option ℝ × Option ℝ) × ℚ) ×
      List (Option ℚ × Option ℚ × Option ℝ) × (ℝ × ℝ × ℝ) × SummaryTable) :=
  let s1 := benchmark_step f
  let s2 := calib_stats_step s1.1
  let s3 := collab_test_step s2.1
  let s4 := drift_loop_step s3.1
  let s5 := corr_step s4.1
  let s6 := summary_step s5.1
  (s6.1, (s1.2, s2.2, s3.2, s4.2, s5.2, s6.2))

/-- Concrete five-row technical frame used for the achievement-rate
examples: latencies 70, 72, 80, 74, 90 (three of five at most 75). -/
def techSample5 : List TechRow :=
  [⟨1, "scenario_basic", 0, 45, 70, 91, 7, 30⟩,
   ⟨1, "scenario_basic", 60, 45, 72, 90, 7.2, 30.5⟩,
   ⟨1, "scenario_basic", 120, 45, 80, 89, 7.4, 31⟩,
   ⟨2, "scenario_medium", 0, 30, 74, 92, 7.1, 29⟩,
   ⟨2, "scenario_medium", 60, 30, 90, 88, 7.6, 32⟩]

/-- Concrete two-row session used as a drift witness. -/
def techRowA : TechRow := ⟨1, "scenario_basic", 0, 45, 70, 91, 7, 30⟩

/-- Concrete second row of the drift witness session. -/
def techRowB : TechRow := ⟨1, "scenario_basic", 60, 45, 72, 90, 8, 31⟩

lemma sampleVar_nonneg (xs : List ℚ) : 0 ≤ sampleVar xs := by
  rcases xs with _ | ⟨x, t⟩
  · simp [sampleVar]
  · apply div_nonneg
    · refine List.sum_nonneg ?_
      intro y hy
      simp only [List.mem_map] at hy
      obtain ⟨z, _, rfl⟩ := hy
      positivity
    · have h1 : (((x :: t).length : ℚ)) = (t.length : ℚ) + 1 := by
        push_cast [List.length_cons]
        ring
      have h2 : (0 : ℚ) ≤ (t.length : ℚ) := by positivity
      rw [h1]
      linarith

lemma sampleStd_sq (xs : List ℚ) : sampleStd xs ^ 2 = (sampleVar xs : ℝ) :=
  Real.sq_sqrt (by exact_mod_cast sampleVar_nonneg xs)

/-- C1: for every pair of numeric samples each of size at least 2, the effect
size computed by the expression at script lines 91 and 99 equals Cohens d
with pooled standard deviation, d = (mean1 - mean2) /
sqrt(((n1-1)*s1^2 + (n2-1)*s2^2)/(n1+n2-2)) with s1, s2 the ddof = 1 sample
standard deviations. -/
theorem cohens_d_eq_pooled_spec (b w : List ℚ) (hb : 2 ≤ b.length)
    (hw : 2 ≤ w.length) : cohens_d b w = cohensD_spec b w := by
  unfold cohens_d cohensD_spec
  rw [sampleStd_sq, sampleStd_sq]

/-- Witness for C1 at the concrete samples [1, 2, 3] and [4, 5]. -/
theorem cohens_d_eq_pooled_spec_witness :
    2 ≤ ([1, 2, 3] : List ℚ).length ∧ 2 ≤ ([4, 5] : List ℚ).length ∧
      cohens_d [1, 2, 3] [4, 5] = cohensD_spec [1, 2, 3] [4, 5] :=
  ⟨by decide, by decide, cohens_d_eq_pooled_spec [1, 2, 3] [4, 5] (by decide) (by decide)⟩

/-- C2 counterexample: at the concrete input ([1], [2, 3]) with an undersized
first sample, the hypothesis-testing step returns normally with NaN results
(Except.ok with three none values); it does not raise, so the computation is
not a fatal input error. -/
theorem hypothesis_step_small_sample_returns_nan :
    hypothesis_step [1] [2, 3] = Except.ok (none, none, none) := by
  norm_num [hypothesis_step, ttest_ind, cohens_d_nan]

/-- C2 amended: if either sample has size < 2, the hypothesis-testing step
does not raise; it returns NaN (none) for the t statistic, the p-value and
the effect size, and the script continues. -/
theorem hypothesis_step_small_sample (b w : List ℚ)
    (h : b.length < 2 ∨ w.length < 2) :
    hypothesis_step b w = Except.ok (none, none, none) := by
  have hc : ¬(2 ≤ b.length ∧ 2 ≤ w.length) := by omega
  simp [hypothesis_step, ttest_ind, cohens_d_nan, hc]

/-- Witness for the amended C2 at the concrete input ([1], [2, 3]). -/
theorem hypothesis_step_small_sample_witness :
    (([1] : List ℚ).length < 2 ∨ ([2, 3] : List ℚ).length < 2) ∧
      hypothesis_step [1] [2, 3] = Except.ok (none, none, none) :=
  ⟨Or.inl (by decide), hypothesis_step_small_sample [1] [2, 3] (Or.inl (by decide))⟩

lemma indicator_sum_eq_countP (p : ℚ → Bool) (xs : List ℚ) :
    (xs.map (fun x => if p x then (1 : ℚ) else 0)).sum = xs.countP p := by
  induction xs with
  | nil => simp
  | cons x t ih =>
    by_cases h : p x
    · simp [List.countP_cons, h, ih]
      push_cast
      ring
    · simp [List.countP_cons, h, ih]

/-- C5: the achievement-rate computations at script lines 46 and 54 equal
100 times the number of rows meeting the threshold divided by the total
number of rows, and on a concrete five-row frame with three latencies at
most 75 the latency achievement is 60 percent. -/
theorem achievement_rate_eq_proportion (tech : List TechRow) :
    latency_achievement tech =
      100 * (((tech.map (fun r => r.network_latency_ms)).countP
        (fun x => decide (x ≤ 75)) : ℚ)) / tech.length ∧
    fps_achievement tech =
      100 * (((tech.map (fun r => r.frame_rate_fps)).countP
        (fun x => decide (90 ≤ x)) : ℚ)) / tech.length ∧
    latency_achievement techSample5 = 60 := by
  refine ⟨?_, ?_, ?_⟩
  · unfold latency_achievement indicator_mean
    rw [indicator_sum_eq_countP, List.length_map]
    ring
  · unfold fps_achievement indicator_mean
    rw [indicator_sum_eq_countP, List.length_map]
    ring
  · norm_num [latency_achievement, indicator_mean, techSample5]

/-- C6: the improvement percentage at script line 93 equals
(mean(baseline) - mean(wim)) / mean(baseline) * 100 whenever the baseline is
non-empty with nonzero mean, and at baseline = [100, 110, 120],
wim = [80, 85, 90] it equals (110 - 85) / 110 * 100 exactly. -/
theorem improvement_pct_spec (b w : List ℚ) (hb : b ≠ []) (hm : mean b ≠ 0) :
    improvement_pct b w = (mean b - mean w) / mean b * 100 ∧
      improvement_pct [100, 110, 120] [80, 85, 90] = (110 - 85) / 110 * 100 :=
  ⟨rfl, by norm_num [improvement_pct, mean]⟩

/-- Witness for C6 at the concrete samples of the claim. -/
theorem improvement_pct_spec_witness :
    ([100, 110, 120] : List ℚ) ≠ [] ∧ mean [100, 110, 120] ≠ 0 ∧
      (improvement_pct [100, 110, 120] [80, 85, 90] =
          (mean [100, 110, 120] - mean [80, 85, 90]) / mean [100, 110, 120] * 100 ∧
        improvement_pct [100, 110, 120] [80, 85, 90] = (110 - 85) / 110 * 100) :=
  ⟨by simp, by norm_num [mean],
    improvement_pct_spec [100, 110, 120] [80, 85, 90] (by simp) (by norm_num [mean])⟩

/-- C9: the pipeline after loading never mutates the loaded frames: running
every step in script order returns the frames exactly as loaded. -/
theorem pipeline_preserves_frames (f : Frames) : (runAnalysis f).1 = f := rfl

/-- C10: the Status column of the printed summary table is the constant
string PASS mark in all five rows, independent of the frames and of the
computed p-value. -/
theorem summary_status_constant_pass (f g : Frames) (pv qv : Option ℝ) :
    (summary_data f pv).status = List.replicate 5 "✓ PASS" ∧
      (summary_data f pv).status = (summary_data g qv).status :=
  ⟨rfl, rfl⟩

lemma pooled_var_comm (b w : List ℚ) : pooled_var w b = pooled_var b w := by
  unfold pooled_var
  ring

lemma t_stat_swap (b w : List ℚ) : t_stat w b = -t_stat b w := by
  unfold t_stat
  rw [show ((pooled_var w b : ℝ) * (1 / (w.length : ℝ) + 1 / (b.length : ℝ))) =
      ((pooled_var b w : ℝ) * (1 / (b.length : ℝ) + 1 / (w.length : ℝ))) from by
    rw [pooled_var_comm]
    ring]
  rw [show ((mean w : ℝ) - (mean b : ℝ)) = -((mean b : ℝ) - (mean w : ℝ)) from by ring]
  rw [neg_div]

lemma cohens_d_swap (b w : List ℚ) : cohens_d w b = -cohens_d b w := by
  unfold cohens_d
  rw [show ((((w.length : ℝ) - 1) * sampleStd w ^ 2 +
        ((b.length : ℝ) - 1) * sampleStd b ^ 2) /
      ((w.length : ℝ) + (b.length : ℝ) - 2)) =
      ((((b.length : ℝ) - 1) * sampleStd b ^ 2 +
        ((w.length : ℝ) - 1) * sampleStd w ^ 2) /
      ((b.length : ℝ) + (w.length : ℝ) - 2)) from by ring]
  rw [show ((mean w : ℝ) - (mean b : ℝ)) = -((mean b : ℝ) - (mean w : ℝ)) from by ring]
  rw [neg_div]

lemma p_value_swap (b w : List ℚ) : p_value w b = p_value b w := by
  unfold p_value
  rw [t_stat_swap, abs_neg]
  rw [show ((w.length : ℝ) + (b.length : ℝ) - 2) =
      ((b.length : ℝ) + (w.length : ℝ) - 2) from by ring]

/-- C7: for every pair of numeric samples each of size at least 2, swapping
the two samples negates the t statistic and Cohens d, leaves their absolute
values and the p-value unchanged, and repeating the computation on identical
input yields identical output. -/
theorem ttest_swap_symmetry (b w : List ℚ) (hb : 2 ≤ b.length)
    (hw : 2 ≤ w.length) :
    t_stat w b = -t_stat b w ∧ cohens_d w b = -cohens_d b w ∧
      |t_stat w b| = |t_stat b w| ∧ |cohens_d w b| = |cohens_d b w| ∧
      p_value w b = p_value b w ∧
      t_stat b w = t_stat b w ∧ p_value b w = p_value b w ∧
      cohens_d b w = cohens_d b w := by
  refine ⟨t_stat_swap b w, cohens_d_swap b w, ?_, ?_, p_value_swap b w, rfl, rfl, rfl⟩
  · rw [t_stat_swap, abs_neg]
  · rw [cohens_d_swap, abs_neg]

/-- Witness for C7 at the concrete samples [1, 2] and [3, 4]. -/
theorem ttest_swap_symmetry_witness :
    2 ≤ ([1, 2] : List ℚ).length ∧ 2 ≤ ([3, 4] : List ℚ).length ∧
      (t_stat [3, 4] [1, 2] = -t_stat [1, 2] [3, 4] ∧
        cohens_d [3, 4] [1, 2] = -cohens_d [1, 2] [3, 4] ∧
        |t_stat [3, 4] [1, 2]| = |t_stat [1, 2] [3, 4]| ∧
        |cohens_d [3, 4] [1, 2]| = |cohens_d [1, 2] [3, 4]| ∧
        p_value [3, 4] [1, 2] = p_value [1, 2] [3, 4] ∧
        t_stat [1, 2] [3, 4] = t_stat [1, 2] [3, 4] ∧
        p_value [1, 2] [3, 4] = p_value [1, 2] [3, 4] ∧
        cohens_d [1, 2] [3, 4] = cohens_d [1, 2] [3, 4]) :=
  ⟨by decide, by decide, ttest_swap_symmetry [1, 2] [3, 4] (by decide) (by decide)⟩

lemma list_sum_eq_zero_of_nonneg (l : List ℚ) (h : ∀ x ∈ l, 0 ≤ x)
    (hs : l.sum = 0) : ∀ x ∈ l, x = 0 := by
  induction l with
  | nil => simp
  | cons a t ih =>
    simp only [List.sum_cons] at hs
    have ha : 0 ≤ a := h a (by simp)
    have ht : ∀ x ∈ t, 0 ≤ x := fun x hx => h x (by simp [hx])
    have hts : 0 ≤ t.sum := List.sum_nonneg ht
    have ha0 : a = 0 := by linarith
    have hts0 : t.sum = 0 := by linarith
    intro x hx
    rcases List.mem_cons.mp hx with rfl | hx2
    · exact ha0
    · exact ih ht hts0 x hx2

lemma two_le_length_of_two_mem {xs : List ℚ}
    (h : ∃ a ∈ xs, ∃ b ∈ xs, a ≠ b) : 2 ≤ xs.length := by
  obtain ⟨a, ha, b, hb, hab⟩ := h
  rcases xs with _ | ⟨x, _ | ⟨y, t⟩⟩
  · simp at ha
  · simp at ha hb
    subst ha
    subst hb
    exact absurd rfl hab
  · simp only [List.length_cons]
    omega

lemma sampleVar_pos {xs : List ℚ} (h : ∃ a ∈ xs, ∃ b ∈ xs, a ≠ b) :
    0 < sampleVar xs := by
  have hlen : 2 ≤ xs.length := two_le_length_of_two_mem h
  have hnnall : ∀ y ∈ xs.map (fun x => (x - mean xs) ^ 2), 0 ≤ y := by
    intro y hy
    simp only [List.mem_map] at hy
    obtain ⟨z, _, rfl⟩ := hy
    positivity
  unfold sampleVar
  apply div_pos
  · rcases lt_or_eq_of_le (List.sum_nonneg hnnall) with hpos | hzero
    · exact hpos
    · exfalso
      have hall := list_sum_eq_zero_of_nonneg _ hnnall hzero.symm
      obtain ⟨a, ha, b, hb, hab⟩ := h
      have ha2 : (a - mean xs) ^ 2 = 0 :=
        hall _ (List.mem_map_of_mem (fun x => (x - mean xs) ^ 2) ha)
      have hb2 : (b - mean xs) ^ 2 = 0 :=
        hall _ (List.mem_map_of_mem (fun x => (x - mean xs) ^ 2) hb)
      have ha3 : a - mean xs = 0 := by
        exact pow_eq_zero_iff (two_ne_zero) |>.mp ha2
      have hb3 : b - mean xs = 0 := by
        exact pow_eq_zero_iff (two_ne_zero) |>.mp hb2
      apply hab
      have haeq : a = mean xs := by linarith
      have hbeq : b = mean xs := by linarith
      rw [haeq, hbeq]
  · have hq : (2 : ℚ) ≤ (xs.length : ℚ) := by exact_mod_cast hlen
    linarith

lemma sampleCov_self (xs : List ℚ) : sampleCov xs xs = sampleVar xs := by
  unfold sampleCov sampleVar
  congr 1
  rw [List.zipWith_same]
  congr 1
  apply List.map_congr_left
  intro a _
  ring

/-- C8: the correlation module computes the Pearson coefficient of headset
temperature against each response column over the full unfiltered frame,
and the Pearson correlation of any non-constant column with itself equals
1 exactly. -/
theorem pearson_self_correlation (tech : List TechRow) (xs : List ℚ)
    (h : ∃ a ∈ xs, ∃ b ∈ xs, a ≠ b) :
    temp_fps_corr tech = pearson (tech.map (fun r => r.headset_temp_c))
        (tech.map (fun r => r.frame_rate_fps)) ∧
      temp_calib_corr tech = pearson (tech.map (fun r => r.headset_temp_c))
        (tech.map (fun r => r.calibration_error_mm)) ∧
      temp_latency_corr tech = pearson (tech.map (fun r => r.headset_temp_c))
        (tech.map (fun r => r.network_latency_ms)) ∧
      pearson xs xs = 1 := by
  refine ⟨rfl, rfl, rfl, ?_⟩
  have hv : 0 < sampleVar xs := sampleVar_pos h
  have hvR : (0 : ℝ) < (sampleVar xs : ℝ) := by exact_mod_cast hv
  unfold pearson sampleStd
  rw [sampleCov_self]
  rw [Real.mul_self_sqrt (le_of_lt hvR)]
  exact div_self (ne_of_gt hvR)

/-- Witness for C8 at the empty frame and the non-constant column [0, 1]. -/
theorem pearson_self_correlation_witness :
    (∃ a ∈ ([0, 1] : List ℚ), ∃ b ∈ ([0, 1] : List ℚ), a ≠ b) ∧
      (temp_fps_corr [] = pearson (([] : List TechRow).map (fun r => r.headset_temp_c))
          (([] : List TechRow).map (fun r => r.frame_rate_fps)) ∧
        temp_calib_corr [] = pearson (([] : List TechRow).map (fun r => r.headset_temp_c))
          (([] : List TechRow).map (fun r => r.calibration_error_mm)) ∧
        temp_latency_corr [] = pearson (([] : List TechRow).map (fun r => r.headset_temp_c))
          (([] : List TechRow).map (fun r => r.network_latency_ms)) ∧
        pearson [0, 1] [0, 1] = 1) :=
  ⟨⟨0, by simp, 1, by simp, by norm_num⟩,
    pearson_self_correlation [] [0, 1] ⟨0, by simp, 1, by simp, by norm_num⟩⟩

lemma tsLE_trans : ∀ a b c : TechRow, tsLE a b = true → tsLE b c = true →
    tsLE a c = true := by
  intro a b c hab hbc
  simp only [tsLE, decide_eq_true_eq] at hab hbc ⊢
  exact le_trans hab hbc

lemma tsLE_total : ∀ a b : TechRow, (tsLE a b || tsLE b a) = true := by
  intro a b
  simp only [tsLE, Bool.or_eq_true, decide_eq_true_eq]
  exact le_total _ _

lemma sessionSorted_perm (rows : List TechRow) : (sessionSorted rows).Perm rows :=
  List.mergeSort_perm rows tsLE

lemma sessionSorted_ne_nil {rows : List TechRow} (h : rows ≠ []) :
    sessionSorted rows ≠ [] := by
  intro hc
  apply h
  have hlen := (sessionSorted_perm rows).length_eq
  rw [hc] at hlen
  simp only [List.length_nil] at hlen
  exact List.eq_nil_of_length_eq_zero hlen.symm

/-- C3: for every session with at least one row, the rows are sorted by
timestamp ascending (a sorted permutation of the input), frame-rate drift is
the frame rate of the first sorted row minus that of the last, calibration
drift is the calibration error of the last sorted row minus that of the
first, each also divided by the session duration taken from the first sorted
row, and jitter is the ddof = 1 standard deviation of network latency within
the session. -/
theorem session_drift_spec (rows : List TechRow) (h : rows ≠ []) :
    (sessionSorted rows).Perm rows ∧
      List.Pairwise (fun a b => a.timestamp_sec ≤ b.timestamp_sec)
        (sessionSorted rows) ∧
      ∃ firstR lastR,
        (sessionSorted rows).head? = some firstR ∧
        (sessionSorted rows).getLast? = some lastR ∧
        fps_drift rows = some (firstR.frame_rate_fps - lastR.frame_rate_fps) ∧
        fps_drift_rate rows = some ((firstR.frame_rate_fps - lastR.frame_rate_fps) /
          firstR.duration_min) ∧
        calib_drift rows = some (lastR.calibration_error_mm - firstR.calibration_error_mm) ∧
        calib_drift_rate rows = some ((lastR.calibration_error_mm - firstR.calibration_error_mm) /
          firstR.duration_min) ∧
        latency_jitter rows = sampleStdNaN ((sessionSorted rows).map
          (fun r => r.network_latency_ms)) := by
  have hs : sessionSorted rows ≠ [] := sessionSorted_ne_nil h
  refine ⟨sessionSorted_perm rows, ?_, ?_⟩
  · have hp := List.sorted_mergeSort tsLE_trans tsLE_total rows
    refine List.Pairwise.imp ?_ hp
    intro a b hab
    simpa [tsLE, decide_eq_true_eq] using hab
  · refine ⟨(sessionSorted rows).head hs, (sessionSorted rows).getLast hs,
      List.head?_eq_head hs, List.getLast?_eq_getLast _ hs, ?_, ?_, ?_, ?_, rfl⟩
    · simp [fps_drift, List.head?_eq_head hs, List.getLast?_eq_getLast _ hs]
    · simp [fps_drift_rate, fps_drift, session_duration,
        List.head?_eq_head hs, List.getLast?_eq_getLast _ hs]
    · simp [calib_drift, List.head?_eq_head hs, List.getLast?_eq_getLast _ hs]
    · simp [calib_drift_rate, calib_drift, session_duration,
        List.head?_eq_head hs, List.getLast?_eq_getLast _ hs]

/-- Witness for C3 at the concrete two-row session [techRowA, techRowB]. -/
theorem session_drift_spec_witness :
    ([techRowA, techRowB] : List TechRow) ≠ [] ∧
      ((sessionSorted [techRowA, techRowB]).Perm [techRowA, techRowB] ∧
        List.Pairwise (fun a b => a.timestamp_sec ≤ b.timestamp_sec)
          (sessionSorted [techRowA, techRowB]) ∧
        ∃ firstR lastR,
          (sessionSorted [techRowA, techRowB]).head? = some firstR ∧
          (sessionSorted [techRowA, techRowB]).getLast? = some lastR ∧
          fps_drift [techRowA, techRowB] =
            some (firstR.frame_rate_fps - lastR.frame_rate_fps) ∧
          fps_drift_rate [techRowA, techRowB] =
            some ((firstR.frame_rate_fps - lastR.frame_rate_fps) / firstR.duration_min) ∧
          calib_drift [techRowA, techRowB] =
            some (lastR.calibration_error_mm - firstR.calibration_error_mm) ∧
          calib_drift_rate [techRowA, techRowB] =
            some ((lastR.calibration_error_mm - firstR.calibration_error_mm) /
              firstR.duration_min) ∧
          latency_jitter [techRowA, techRowB] =
            sampleStdNaN ((sessionSorted [techRowA, techRowB]).map
              (fun r => r.network_latency_ms))) :=
  ⟨by simp, session_drift_spec [techRowA, techRowB] (by simp)⟩

/-- C4: a session consisting of exactly one row has frame-rate drift exactly
0, calibration drift exactly 0, and undefined (NaN) latency jitter. -/
theorem single_row_session_drift (r : TechRow) :
    fps_drift [r] = some 0 ∧ calib_drift [r] = some 0 ∧
      latency_jitter [r] = none := by
  have hs : sessionSorted [r] = [r] := by simp [sessionSorted]
  refine ⟨?_, ?_, ?_⟩
  · simp [fps_drift, hs]
  · simp [calib_drift, hs]
  · simp [latency_jitter, hs, sampleStdNaN]
